import Mathlib

/-!
A shallow embedding of the file-processing tools and the request dispatcher
of `src/updated_code.py` (a small FastAPI service that forwards a task to a
remote chat-completion endpoint and dispatches the returned tool call to one
of four local file-processing functions), together with proofs of the spec's
claims about them.

Modelling conventions:
* The filesystem is an association list from path strings to entries; an
  entry is either a regular file (with typed content: a JSON contact array,
  raw text, or a JSON index mapping) or a directory holding a flat list of
  named files with modification times.  Writing a file prepends a binding,
  which shadows any earlier binding for the same path.
* Raising `HTTPException(status, detail)` is modelled by the `.err` outcome,
  which carries no filesystem: an exception aborts before any further write.
* Python's stable `list.sort` (Timsort) is modelled by
  `List.insertionSort`, which sorts stably with respect to the same
  comparison; a stable sort under a total preorder has a unique result, so
  the two agree.
* `str.lower` is modelled per-character by `Char.toLower` (exact on ASCII),
  and `str.strip` drops `Char.isWhitespace` characters (exact on ASCII
  whitespace).
-/

/-- A JSON contact object: optional `first_name` / `last_name` string fields,
plus any other fields (`extra`), which the sort never inspects. -/
structure Contact where
  first_name : Option String := none
  last_name : Option String := none
  extra : List (String × String) := []
deriving DecidableEq, Repr

/-- Character-wise model of Python `str.lower()`. -/
def pyLower (s : String) : String := ⟨s.data.map Char.toLower⟩

/-- The sort key of `updated_code.py:78`:
`(c.get("last_name", "").lower(), c.get("first_name", "").lower())`. -/
def contactKey (c : Contact) : String × String :=
  (pyLower (c.last_name.getD ""), pyLower (c.first_name.getD ""))

/-- Strict lexicographic comparison of two lists of characters by code
point, as Python compares strings. -/
def charListLt : List Char → List Char → Bool
  | _, [] => false
  | [], _ :: _ => true
  | a :: as, b :: bs => decide (a < b) || (a == b && charListLt as bs)

/-- Python's `<` on strings: lexicographic by code point. -/
def strLt (a b : String) : Bool := charListLt a.data b.data

/-- Python's `<=` on strings. -/
def strLe (a b : String) : Bool := a == b || strLt a b

/-- Lexicographic comparison of key tuples, as Python compares 2-tuples of
strings. -/
def keyLE (p q : String × String) : Bool :=
  strLt p.1 q.1 || (p.1 == q.1 && strLe p.2 q.2)

/-- Comparison of two contacts by their sort keys. -/
def contactLE (a b : Contact) : Bool := keyLE (contactKey a) (contactKey b)

/-- The ordering relation on contacts induced by their sort keys. -/
def ContactRel (a b : Contact) : Prop := contactLE a b = true

instance : DecidableRel ContactRel :=
  fun a b => inferInstanceAs (Decidable (contactLE a b = true))

/-- `contacts.sort(key=...)` of `updated_code.py:77-79`: Python's `list.sort`
is a stable sort by the key; a stable sort under a total preorder has a
unique result, so it is modelled by stable insertion sort. -/
def sortContacts (cs : List Contact) : List Contact := cs.insertionSort ContactRel

/-! ## The filesystem model -/

/-- Typed content of a regular file. -/
inductive FileData where
  | contacts (cs : List Contact)
  | text (s : String)
  | index (m : List (String × String))
deriving DecidableEq, Repr

/-- A file inside a directory: a name, a last-modified time and raw text
content. -/
structure DirFile where
  name : String
  mtime : Nat
  content : String
deriving DecidableEq, Repr

/-- A filesystem entry: a regular file or a directory (modelled as a flat
list of named files). -/
inductive FsEntry where
  | file (d : FileData)
  | dir (entries : List DirFile)
deriving DecidableEq, Repr

/-- The filesystem: paths bound to entries; the first binding for a path
wins, so writing prepends. -/
abbrev FS := List (String × FsEntry)

/-- Look up the entry at a path. -/
def lookupEntry (fs : FS) (p : String) : Option FsEntry := List.lookup p fs

/-- `os.path.exists`. -/
def pathExists (fs : FS) (p : String) : Bool := (lookupEntry fs p).isSome

/-- `open(p, "w")` followed by writing `d`. -/
def setFile (fs : FS) (p : String) (d : FileData) : FS := (p, .file d) :: fs

/-- The dictionary a tool returns on success (`status` and `message`
fields). -/
structure ToolResult where
  status : String
  message : String
deriving DecidableEq, Repr

/-- Outcome of running one tool: a new filesystem and a result, or an
`HTTPException(code, detail)` raised before any (further) write. -/
inductive ToolOutcome where
  | ok (fs : FS) (r : ToolResult)
  | err (code : Nat) (detail : String)
deriving DecidableEq, Repr

/-- The filesystem after an outcome: an exception leaves the filesystem as
it was. -/
def finalFS (fs : FS) : ToolOutcome → FS
  | .ok fs' _ => fs'
  | .err _ _ => fs

/-- `sort_contacts` of `updated_code.py:67-86`: 404 if the input path does
not exist; otherwise parse the input as a JSON contact array (any other
content raises, caught as a 500), stable-sort it by `contactKey`, and write
the sorted array (as indented JSON) to the output path. -/
def sort_contacts (fs : FS) (input_location output_location : String) : ToolOutcome :=
  if ¬ pathExists fs input_location then
    .err 404 ("Input file " ++ input_location ++ " does not exist.")
  else
    match lookupEntry fs input_location with
    | some (.file (.contacts cs)) =>
        .ok (setFile fs output_location (.contacts (sortContacts cs)))
          ⟨"success", "Contacts sorted and saved to " ++ output_location ++ "."⟩
    | _ => .err 500 "Error sorting contacts"

/-! ## String helpers (structural models of the Python string operations) -/

/-- Does the second list start with the first? -/
def listStarts : List Char → List Char → Bool
  | [], _ => true
  | _ :: _, [] => false
  | a :: as, b :: bs => a == b && listStarts as bs

/-- Python `str.startswith`. -/
def strStartsWith (s t : String) : Bool := listStarts t.data s.data

/-- Python `str.endswith`; also the filter applied by `fnmatch`-style glob
patterns such as `*.log` and `*.md` (which `pathlib` matches against all
entries, hidden files included). -/
def strEndsWith (s t : String) : Bool := listStarts t.data.reverse s.data.reverse

/-- Python `str.strip()` with no argument: remove leading and trailing
whitespace. -/
def pyStrip (s : String) : String :=
  ⟨((s.data.dropWhile Char.isWhitespace).reverse.dropWhile Char.isWhitespace).reverse⟩

/-- Split a character list at newline characters. -/
def splitNl : List Char → List (List Char)
  | [] => [[]]
  | c :: cs =>
    if c == '\n' then [] :: splitNl cs
    else
      match splitNl cs with
      | [] => [[c]]
      | l :: ls => (c :: l) :: ls

/-- Rebuild `file.readlines()` output from newline-split segments: every
line but the last keeps its trailing newline; a trailing empty segment
(from content ending in a newline) is not a line. -/
def readLinesAux : List (List Char) → List String
  | [] => []
  | [last] => if last.isEmpty then [] else [String.mk last]
  | p :: rest => String.mk (p ++ ['\n']) :: readLinesAux rest

/-- Python `file.readlines()` on text content `s`. -/
def pyReadLines (s : String) : List String := readLinesAux (splitNl s.data)

/-- Python `file.readline().strip()`: the trimmed first line of the
content (the empty string for empty content). -/
def firstLine (s : String) : String := pyStrip (String.mk ((splitNl s.data).headD []))

/-- The write loop of `updated_code.py:96-99`: one `write(line + "\n")` per
entry. -/
def joinLines : List String → String
  | [] => ""
  | l :: ls => l ++ "\n" ++ joinLines ls

/-! ## The date model: `DATE_FORMATS`, `parse_date` and `.weekday()`

`datetime.strptime` compiles each format into a regular expression
(`%Y` = exactly four digits; `%m`/`%d`/`%H`/`%M`/`%S` = one or two digits
restricted to the field's range; `%b` = a case-insensitive three-letter
month abbreviation; a space matches one or more whitespace characters) and
requires it to consume the whole string, then builds a `datetime`, which
additionally requires year ≥ 1, a day that exists in the month, and
seconds ≤ 59.  For these formats the regex's local greedy choice
(two digits if they form a valid field value, else one) never needs
cross-token backtracking, because every token after a numeric field is a
non-digit, so it is modelled by a deterministic parser. -/

structure PyDateTime where
  year : Nat
  month : Nat
  day : Nat
  hour : Nat
  minute : Nat
  second : Nat
deriving DecidableEq, Repr

/-- Numeric value of a digit character. -/
def digitVal (c : Char) : Nat := c.toNat - 48

/-- `%Y`: exactly four digits. -/
def parseY : List Char → Option (Nat × List Char)
  | a :: b :: c :: d :: rest =>
    if a.isDigit && b.isDigit && c.isDigit && d.isDigit then
      some (((digitVal a * 10 + digitVal b) * 10 + digitVal c) * 10 + digitVal d, rest)
    else none
  | _ => none

/-- A one-or-two-digit numeric field: two digits when they form a value in
`[lo2, hi2]`, else one digit with value in `[lo1, hi1]`. -/
def parse2or1 (lo2 hi2 lo1 hi1 : Nat) (cs : List Char) : Option (Nat × List Char) :=
  match cs with
  | c1 :: c2 :: rest =>
    if c1.isDigit then
      if c2.isDigit && decide (lo2 ≤ digitVal c1 * 10 + digitVal c2 ∧
          digitVal c1 * 10 + digitVal c2 ≤ hi2) then
        some (digitVal c1 * 10 + digitVal c2, rest)
      else if decide (lo1 ≤ digitVal c1 ∧ digitVal c1 ≤ hi1) then
        some (digitVal c1, c2 :: rest)
      else none
    else none
  | [c1] =>
    if c1.isDigit && decide (lo1 ≤ digitVal c1 ∧ digitVal c1 ≤ hi1) then
      some (digitVal c1, [])
    else none
  | [] => none

/-- A literal character of the format. -/
def expectChar (c : Char) : List Char → Option (List Char)
  | x :: rest => if x == c then some rest else none
  | [] => none

/-- Whitespace in the format: one or more whitespace characters. -/
def expectWs : List Char → Option (List Char)
  | x :: rest => if x.isWhitespace then some (rest.dropWhile Char.isWhitespace) else none
  | [] => none

/-- The locale month abbreviations matched by `%b`, lower-cased. -/
def monthAbbrevs : List String :=
  ["jan", "feb", "mar", "apr", "may", "jun", "jul", "aug", "sep", "oct", "nov", "dec"]

/-- 1-based position of a month abbreviation. -/
def monthIdxAux : List String → Nat → String → Option Nat
  | [], _, _ => none
  | m :: ms, i, w => if m == w then some i else monthIdxAux ms (i + 1) w

/-- `%b`: a case-insensitive three-letter month abbreviation. -/
def parseMonthAbbrev : List Char → Option (Nat × List Char)
  | a :: b :: c :: rest =>
    match monthIdxAux monthAbbrevs 1 (String.mk [a.toLower, b.toLower, c.toLower]) with
    | some m => some (m, rest)
    | none => none
  | _ => none

/-- Is `y` a (proleptic Gregorian) leap year, as `datetime` reckons it? -/
def isLeap (y : Nat) : Bool := y % 4 == 0 && (y % 100 != 0 || y % 400 == 0)

/-- Number of days in month `m` of year `y`. -/
def daysInMonth (y m : Nat) : Nat :=
  match m with
  | 1 => 31
  | 2 => if isLeap y then 29 else 28
  | 3 => 31
  | 4 => 30
  | 5 => 31
  | 6 => 30
  | 7 => 31
  | 8 => 31
  | 9 => 30
  | 10 => 31
  | 11 => 30
  | 12 => 31
  | _ => 0

/-- Days in year `y` before the start of month `m`. -/
def daysBeforeMonth (y m : Nat) : Nat :=
  (List.range (m - 1)).foldl (fun acc k => acc + daysInMonth y (k + 1)) 0

/-- The validity checks of the `datetime` constructor that the format
regexes do not already enforce: year ≥ 1, day within the month, and
seconds ≤ 59 (the `%S` regex alone admits leap seconds 60 and 61). -/
def mkDateTime (y m d h mi s : Nat) : Option PyDateTime :=
  if 1 ≤ y ∧ d ≤ daysInMonth y m ∧ s ≤ 59 then some ⟨y, m, d, h, mi, s⟩ else none

/-- `"%Y-%m-%d"`. -/
def parseFmtYmdDash (cs : List Char) : Option PyDateTime := do
  let (y, r1) ← parseY cs
  let r2 ← expectChar '-' r1
  let (m, r3) ← parse2or1 1 12 1 9 r2
  let r4 ← expectChar '-' r3
  let (d, r5) ← parse2or1 1 31 1 9 r4
  if r5.isEmpty then mkDateTime y m d 0 0 0 else none

/-- `"%d-%b-%Y"`. -/
def parseFmtDbY (cs : List Char) : Option PyDateTime := do
  let (d, r1) ← parse2or1 1 31 1 9 cs
  let r2 ← expectChar '-' r1
  let (m, r3) ← parseMonthAbbrev r2
  let r4 ← expectChar '-' r3
  let (y, r5) ← parseY r4
  if r5.isEmpty then mkDateTime y m d 0 0 0 else none

/-- `"%Y/%m/%d %H:%M:%S"`. -/
def parseFmtYmdSlashHMS (cs : List Char) : Option PyDateTime := do
  let (y, r1) ← parseY cs
  let r2 ← expectChar '/' r1
  let (m, r3) ← parse2or1 1 12 1 9 r2
  let r4 ← expectChar '/' r3
  let (d, r5) ← parse2or1 1 31 1 9 r4
  let r6 ← expectWs r5
  let (h, r7) ← parse2or1 0 23 0 9 r6
  let r8 ← expectChar ':' r7
  let (mi, r9) ← parse2or1 0 59 0 9 r8
  let r10 ← expectChar ':' r9
  let (s, r11) ← parse2or1 0 61 0 9 r10
  if r11.isEmpty then mkDateTime y m d h mi s else none

/-- `"%b %d, %Y"`. -/
def parseFmtBdY (cs : List Char) : Option PyDateTime := do
  let (m, r1) ← parseMonthAbbrev cs
  let r2 ← expectWs r1
  let (d, r3) ← parse2or1 1 31 1 9 r2
  let r4 ← expectChar ',' r3
  let r5 ← expectWs r4
  let (y, r6) ← parseY r5
  if r6.isEmpty then mkDateTime y m d 0 0 0 else none

/-- `"%Y/%m/%d"`. -/
def parseFmtYmdSlash (cs : List Char) : Option PyDateTime := do
  let (y, r1) ← parseY cs
  let r2 ← expectChar '/' r1
  let (m, r3) ← parse2or1 1 12 1 9 r2
  let r4 ← expectChar '/' r3
  let (d, r5) ← parse2or1 1 31 1 9 r4
  if r5.isEmpty then mkDateTime y m d 0 0 0 else none

/-- The five accepted date formats, as `updated_code.py:30-36` orders
them. -/
inductive DateFormat where
  | ymdDash
  | dbY
  | ymdSlashHMS
  | bdY
  | ymdSlash
deriving DecidableEq, Repr

def DATE_FORMATS : List DateFormat :=
  [.ymdDash, .dbY, .ymdSlashHMS, .bdY, .ymdSlash]

/-- `datetime.strptime(s, fmt)`, for the five accepted formats. -/
def strptime (s : String) (f : DateFormat) : Option PyDateTime :=
  match f with
  | .ymdDash => parseFmtYmdDash s.data
  | .dbY => parseFmtDbY s.data
  | .ymdSlashHMS => parseFmtYmdSlashHMS s.data
  | .bdY => parseFmtBdY s.data
  | .ymdSlash => parseFmtYmdSlash s.data

/-- Try the formats in order; the first that succeeds wins. -/
def parseDateAux (stripped : String) : List DateFormat → Option PyDateTime
  | [] => none
  | f :: rest =>
    match strptime stripped f with
    | some dt => some dt
    | none => parseDateAux stripped rest

/-- `parse_date` of `updated_code.py:38-45`: strip the string, then try the
formats of `DATE_FORMATS` in order, returning the first success, or `None`
when every format fails. -/
def parse_date (s : String) : Option PyDateTime := parseDateAux (pyStrip s) DATE_FORMATS

/-- `datetime.date.toordinal`: day number in the proleptic Gregorian
calendar, with 0001-01-01 as day 1. -/
def toOrdinal (y m d : Nat) : Nat :=
  365 * (y - 1) + (y - 1) / 4 - (y - 1) / 100 + (y - 1) / 400 + daysBeforeMonth y m + d

/-- `datetime.weekday()`: Monday = 0 … Sunday = 6 (0001-01-01 was a
Monday). -/
def pyWeekday (dt : PyDateTime) : Nat := (toOrdinal dt.year dt.month dt.day + 6) % 7

/-- Does this line parse as a date that falls on a Wednesday
(`weekday() == 2`)? -/
def isWednesdayLine (s : String) : Bool :=
  match parse_date s with
  | some dt => pyWeekday dt == 2
  | none => false

/-- The generator-sum of `updated_code.py:55-57`. -/
def wednesdayCount (dates : List String) : Nat := dates.countP isWednesdayLine

/-- `count_wednesdays` of `updated_code.py:47-64`: 404 if the input path
does not exist; otherwise read the input's lines, count those that parse
(via `parse_date`) to a Wednesday, and write the count as plain text to the
output path; any read/processing failure is caught as a 500. -/
def count_wednesdays (fs : FS) (input_location output_location : String) : ToolOutcome :=
  if ¬ pathExists fs input_location then
    .err 404 ("Input file " ++ input_location ++ " does not exist.")
  else
    match lookupEntry fs input_location with
    | some (.file (.text s)) =>
        .ok (setFile fs output_location (.text (toString (wednesdayCount (pyReadLines s)))))
          ⟨"success", "Count of Wednesdays saved to " ++ output_location ++ "."⟩
    | _ => .err 500 "Error processing dates"

/-- Ordering of log files used by
`sorted(..., key=lambda f: f.stat().st_mtime, reverse=True)`: most recently
modified first.  `sorted` with `reverse=True` is stable (ties keep their
directory-listing order), so it is modelled by stable insertion sort under
this relation. -/
def LogRel (a b : DirFile) : Prop := b.mtime ≤ a.mtime

instance : DecidableRel LogRel := fun a b => Nat.decLe b.mtime a.mtime

/-- `write_recent_log_lines` of `updated_code.py:88-106`: 404 if the input
path does not exist; otherwise take the `*.log` files of the directory,
most recently modified first, keep the first 10, and write each one's
trimmed first line (one per line) to the output path. -/
def write_recent_log_lines (fs : FS) (input_location output_location : String) : ToolOutcome :=
  if ¬ pathExists fs input_location then
    .err 404 ("Logs directory " ++ input_location ++ " does not exist.")
  else
    match lookupEntry fs input_location with
    | some (.dir entries) =>
        let logs :=
          (((entries.filter (fun f => strEndsWith f.name ".log")).insertionSort LogRel).take 10)
        let content := joinLines (logs.map (fun f => firstLine f.content))
        .ok (setFile fs output_location (.text content))
          ⟨"success", "First lines of 10 most recent logs saved to " ++ output_location ++ "."⟩
    | _ => .err 500 "Error processing log files"

/-- The first `# `-header of a markdown file's content, trimmed, if any:
the loop of `updated_code.py:118-121`. -/
def mdHeaderAux : List String → Option String
  | [] => none
  | l :: ls =>
    if strStartsWith l "# " then some (pyStrip ⟨l.data.drop 2⟩) else mdHeaderAux ls

def mdHeader (content : String) : Option String := mdHeaderAux (pyReadLines content)

/-- Assignment into a Python `dict`, preserving insertion order and
overwriting an existing key in place. -/
def dictSet : List (String × String) → String → String → List (String × String)
  | [], k, v => [(k, v)]
  | (k', v') :: rest, k, v =>
    if k' == k then (k', v) :: rest else (k', v') :: dictSet rest k v

/-- The index built by `generate_markdown_index`: filename ↦ first header
text, for the files that have one. -/
def buildIndex (mds : List DirFile) : List (String × String) :=
  mds.foldl
    (fun acc f =>
      match mdHeader f.content with
      | some h => dictSet acc f.name h
      | none => acc)
    []

/-- `generate_markdown_index` of `updated_code.py:108-126`: note that the
body ignores both supplied locations — it scans the hard-coded `data/`
directory (404 if `data/` does not exist) and writes the index to the
hard-coded `data/index.json`. -/
def generate_markdown_index (fs : FS) (input_location output_location : String) : ToolOutcome :=
  let docs_dir := "data/"
  let output_path := "data/index.json"
  if ¬ pathExists fs docs_dir then
    .err 404 ("Docs directory " ++ docs_dir ++ " does not exist.")
  else
    match lookupEntry fs docs_dir with
    | some (.dir entries) =>
        let index := buildIndex (entries.filter (fun f => strEndsWith f.name ".md"))
        .ok (setFile fs output_path (.index index))
          ⟨"success", "Markdown index saved to " ++ output_path ++ "."⟩
    | _ => .err 500 "Not a directory"

/-! ## The Tool Catalog, the Tool Registry and the dispatcher -/

/-- A tool descriptor of the Tool Catalog: the declared name and the
required parameter names of its JSON schema. -/
structure ToolDescriptor where
  name : String
  required : List String
deriving DecidableEq, Repr

def SORT_CONTACTS : ToolDescriptor :=
  ⟨"sort_contacts", ["input_location", "output_location"]⟩

def WRITE_RECENT_LOG_LINES : ToolDescriptor :=
  ⟨"write_recent_log_lines", ["input_location", "output_location"]⟩

def GENERATE_MARKDOWN_INDEX : ToolDescriptor :=
  ⟨"generate_markdown_index", ["input_location", "output_location"]⟩

def COUNT_WEDNESDAYS : ToolDescriptor :=
  ⟨"count_wednesdays", ["input_location", "output_location"]⟩

/-- The Tool Catalog sent to the remote model (`updated_code.py:236`). -/
def tools : List ToolDescriptor :=
  [SORT_CONTACTS, WRITE_RECENT_LOG_LINES, GENERATE_MARKDOWN_INDEX, COUNT_WEDNESDAYS]

/-- The Tool Registry (`FUNCTIONS` of `updated_code.py:273-278`): tool name
to implementing function. -/
def FUNCTIONS : List (String × (FS → String → String → ToolOutcome)) :=
  [("sort_contacts", sort_contacts),
   ("write_recent_log_lines", write_recent_log_lines),
   ("generate_markdown_index", generate_markdown_index),
   ("count_wednesdays", count_wednesdays)]

/-- One tool call extracted from the gateway response: a tool name and its
argument payload (`none` models an argument string that is not valid
JSON; `some args` models the parsed JSON object, with string values). -/
structure ToolCall where
  name : String
  args : Option (List (String × String))
deriving DecidableEq, Repr

/-- What the gateway interaction produced: an `HTTPException` from
`query_gpt` (missing token, network failure, bad response), or a response
whose first choice's message carries the given list of tool calls. -/
inductive GatewayOutcome where
  | fail (code : Nat) (detail : String)
  | ok (tool_calls : List ToolCall)
deriving Repr

/-- The body returned by the `/run` endpoint. -/
inductive RunOutcome where
  | result (r : ToolResult)
  | noToolCalls
  | err (code : Nat) (detail : String)
deriving DecidableEq, Repr

/-- A run of the endpoint: whether `query_gpt` was invoked, the response,
and the filesystem afterwards. -/
structure RunResult where
  gatewayCalled : Bool
  outcome : RunOutcome
  fs : FS
deriving Repr

/-- `func(**arguments)` for the tool functions, all of which declare
exactly the parameters `input_location` and `output_location`: succeeds
iff the argument object binds exactly those two keys; anything else is a
`TypeError`. -/
def getTwoArgs (args : List (String × String)) : Option (String × String) :=
  match List.lookup "input_location" args, List.lookup "output_location" args with
  | some i, some o =>
    if args.all (fun kv => kv.1 == "input_location" || kv.1 == "output_location") then
      some (i, o)
    else none
  | _, _ => none

/-- The tool-call loop of `updated_code.py:292-312`.  Every iteration
returns or raises, so only the first tool call is ever processed: parse
its arguments (400 on malformed JSON), look its name up in `FUNCTIONS`
(400 when absent), and invoke the function — any exception the function
raises (its own `HTTPException`s included) is wrapped as a 500
`Error calling function`. -/
def dispatchToolCalls (fs : FS) : List ToolCall → RunOutcome × FS
  | [] => (.noToolCalls, fs)
  | tc :: _ =>
    match tc.args with
    | none => (.err 400 "Invalid JSON arguments", fs)
    | some args =>
      match List.lookup tc.name FUNCTIONS with
      | some f =>
        match getTwoArgs args with
        | some (inp, outp) =>
          match f fs inp outp with
          | .ok fs' r => (.result r, fs')
          | .err code detail =>
            (.err 500 ("Error calling function: " ++ toString code ++ ": " ++ detail), fs)
        | none => (.err 500 "Error calling function: unexpected keyword arguments", fs)
      | none => (.err 400 ("Function not found: " ++ tc.name), fs)

/-- The `/run` endpoint of `updated_code.py:280-318`: strip the task and
reject a blank one with a 400 before anything else; otherwise consult the
gateway and dispatch the resulting tool calls.  `gatewayCalled` records
whether control reached the `query_gpt` call. -/
def run (fs : FS) (task : String) (gateway : GatewayOutcome) : RunResult :=
  if pyStrip task == "" then
    ⟨false, .err 400 "Task cannot be empty", fs⟩
  else
    match gateway with
    | .fail code detail => ⟨true, .err code detail, fs⟩
    | .ok tool_calls =>
      let (o, fs') := dispatchToolCalls fs tool_calls
      ⟨true, o, fs'⟩

/-! ## Properties of the orderings used by the sorts -/

theorem charListLt_trans : ∀ {a b c : List Char},
    charListLt a b = true → charListLt b c = true → charListLt a c = true := by
  intro a
  induction a with
  | nil =>
    intro b c h1 h2
    cases b with
    | nil => simp [charListLt] at h1
    | cons y ys =>
      cases c with
      | nil => simp [charListLt] at h2
      | cons z zs => rfl
  | cons x xs ih =>
    intro b c h1 h2
    cases b with
    | nil => simp [charListLt] at h1
    | cons y ys =>
      cases c with
      | nil => simp [charListLt] at h2
      | cons z zs =>
        simp only [charListLt, Bool.or_eq_true, Bool.and_eq_true, decide_eq_true_eq,
          beq_iff_eq] at h1 h2 ⊢
        rcases h1 with h1 | ⟨e1, r1⟩
        · rcases h2 with h2 | ⟨e2, r2⟩
          · exact Or.inl (lt_trans h1 h2)
          · exact Or.inl (by rw [← e2]; exact h1)
        · rcases h2 with h2 | ⟨e2, r2⟩
          · exact Or.inl (by rw [e1]; exact h2)
          · exact Or.inr ⟨e1.trans e2, ih r1 r2⟩

theorem charListLt_connex : ∀ (a b : List Char),
    charListLt a b = true ∨ a = b ∨ charListLt b a = true := by
  intro a
  induction a with
  | nil =>
    intro b
    cases b with
    | nil => exact Or.inr (Or.inl rfl)
    | cons y ys => exact Or.inl rfl
  | cons x xs ih =>
    intro b
    cases b with
    | nil => exact Or.inr (Or.inr rfl)
    | cons y ys =>
      rcases lt_trichotomy x y with h | h | h
      · exact Or.inl (by simp [charListLt, h])
      · subst h
        rcases ih ys with h2 | h2 | h2
        · exact Or.inl (by simp [charListLt, h2])
        · exact Or.inr (Or.inl (by rw [h2]))
        · exact Or.inr (Or.inr (by simp [charListLt, h2]))
      · exact Or.inr (Or.inr (by simp [charListLt, h]))

theorem string_eq_of_data_eq {a b : String} (h : a.data = b.data) : a = b :=
  congrArg String.mk h

theorem strLt_trans {a b c : String} (h1 : strLt a b = true) (h2 : strLt b c = true) :
    strLt a c = true :=
  charListLt_trans h1 h2

theorem strLt_connex (a b : String) :
    strLt a b = true ∨ a = b ∨ strLt b a = true := by
  rcases charListLt_connex a.data b.data with h | h | h
  · exact Or.inl h
  · exact Or.inr (Or.inl (string_eq_of_data_eq h))
  · exact Or.inr (Or.inr h)

theorem strLe_refl (a : String) : strLe a a = true := by
  simp [strLe]

theorem strLe_total (a b : String) : strLe a b = true ∨ strLe b a = true := by
  rcases strLt_connex a b with h | h | h
  · exact Or.inl (by simp [strLe, h])
  · exact Or.inl (by simp [strLe, h])
  · exact Or.inr (by simp [strLe, h])

theorem strLe_trans {a b c : String} (h1 : strLe a b = true) (h2 : strLe b c = true) :
    strLe a c = true := by
  simp only [strLe, Bool.or_eq_true, beq_iff_eq] at h1 h2 ⊢
  rcases h1 with h1 | h1
  · subst h1
    exact h2
  · rcases h2 with h2 | h2
    · subst h2
      exact Or.inr h1
    · exact Or.inr (strLt_trans h1 h2)

theorem keyLE_trans (a b c : String × String) :
    keyLE a b → keyLE b c → keyLE a c := by
  simp only [keyLE, Bool.or_eq_true, Bool.and_eq_true, beq_iff_eq]
  rintro (h1 | ⟨e1, l1⟩) (h2 | ⟨e2, l2⟩)
  · exact Or.inl (strLt_trans h1 h2)
  · exact Or.inl (by rw [← e2]; exact h1)
  · exact Or.inl (by rw [e1]; exact h2)
  · exact Or.inr ⟨e1.trans e2, strLe_trans l1 l2⟩

theorem keyLE_total (a b : String × String) : keyLE a b || keyLE b a := by
  simp only [keyLE, Bool.or_eq_true, Bool.and_eq_true, beq_iff_eq]
  rcases strLt_connex a.1 b.1 with h | h | h
  · exact Or.inl (Or.inl h)
  · rcases strLe_total a.2 b.2 with h2 | h2
    · exact Or.inl (Or.inr ⟨h, h2⟩)
    · exact Or.inr (Or.inr ⟨h.symm, h2⟩)
  · exact Or.inr (Or.inl h)

instance : IsTrans Contact ContactRel :=
  ⟨fun _ _ _ => keyLE_trans _ _ _⟩

instance : IsTotal Contact ContactRel :=
  ⟨fun a b => by
    have h := keyLE_total (contactKey a) (contactKey b)
    rcases Bool.or_eq_true _ _ |>.mp h with h' | h'
    · exact Or.inl h'
    · exact Or.inr h'⟩

theorem sortContacts_perm (cs : List Contact) : List.Perm (sortContacts cs) cs :=
  List.perm_insertionSort ContactRel cs

theorem sortContacts_sorted (cs : List Contact) :
    (sortContacts cs).Pairwise ContactRel :=
  List.sorted_insertionSort ContactRel cs

theorem sortContacts_idem (cs : List Contact) :
    sortContacts (sortContacts cs) = sortContacts cs :=
  List.Sorted.insertionSort_eq (sortContacts_sorted cs)

theorem contactRel_of_key_eq {a b : Contact} (hkey : contactKey a = contactKey b) :
    ContactRel a b := by
  rcases IsTotal.total (r := ContactRel) a b with h | h
  · exact h
  · unfold ContactRel contactLE at h ⊢
    rw [hkey] at h ⊢
    exact h

theorem sortContacts_stable (cs : List Contact) (a b : Contact)
    (hkey : contactKey a = contactKey b) (hsub : List.Sublist [a, b] cs) :
    List.Sublist [a, b] (sortContacts cs) :=
  List.pair_sublist_insertionSort (contactRel_of_key_eq hkey) hsub

/-! ## Properties of the log ordering and of line splitting -/

instance : IsTrans DirFile LogRel :=
  ⟨fun _ _ _ h1 h2 => Nat.le_trans h2 h1⟩

instance : IsTotal DirFile LogRel :=
  ⟨fun a b => Nat.le_total b.mtime a.mtime⟩

theorem splitNl_ne_nil (cs : List Char) : splitNl cs ≠ [] := by
  cases cs with
  | nil => simp [splitNl]
  | cons c cs =>
    simp only [splitNl]
    split
    · simp
    · split
      · simp
      · simp

theorem mem_splitNl_no_newline :
    ∀ (cs : List Char) (l : List Char), l ∈ splitNl cs → '\n' ∉ l := by
  intro cs
  induction cs with
  | nil =>
    intro l hl
    simp only [splitNl, List.mem_singleton] at hl
    subst hl
    simp
  | cons c cs ih =>
    intro l hl
    simp only [splitNl] at hl
    by_cases hc : c = '\n'
    · rw [if_pos (by simp [hc])] at hl
      rcases List.mem_cons.mp hl with h | h
      · subst h
        simp
      · exact ih l h
    · rw [if_neg (by simp [hc])] at hl
      rcases h' : splitNl cs with _ | ⟨t, ts⟩
      · exact absurd h' (splitNl_ne_nil cs)
      · rw [h'] at hl
        rcases List.mem_cons.mp hl with h | h
        · subst h
          intro hmem
          rcases List.mem_cons.mp hmem with h | h
          · exact hc h.symm
          · exact ih t (by rw [h']; exact List.mem_cons_self t ts) h
        · exact ih l (by rw [h']; exact List.mem_cons_of_mem t h)

theorem splitNl_append_newline :
    ∀ (xs ys : List Char), '\n' ∉ xs → splitNl (xs ++ '\n' :: ys) = xs :: splitNl ys := by
  intro xs
  induction xs with
  | nil =>
    intro ys _
    simp [splitNl]
  | cons c xs ih =>
    intro ys h
    have hc : c ≠ '\n' := fun hcc => h (by rw [hcc]; exact List.mem_cons_self _ _)
    have hxs : '\n' ∉ xs := fun hm => h (List.mem_cons_of_mem _ hm)
    simp only [List.cons_append, splitNl, List.append_eq]
    rw [if_neg (by simp [hc]), ih ys hxs]

theorem pyStrip_data_subset (x : String) (c : Char) (h : c ∈ (pyStrip x).data) :
    c ∈ x.data := by
  simp only [pyStrip, List.mem_reverse] at h
  have h1 := (List.dropWhile_sublist (l := (x.data.dropWhile Char.isWhitespace).reverse)
      (p := Char.isWhitespace)).subset h
  rw [List.mem_reverse] at h1
  exact (List.dropWhile_sublist (l := x.data) (p := Char.isWhitespace)).subset h1

theorem firstLine_no_newline (s : String) : '\n' ∉ (firstLine s).data := by
  intro h
  have h1 := pyStrip_data_subset _ _ h
  rcases h' : splitNl s.data with _ | ⟨t, ts⟩
  · exact absurd h' (splitNl_ne_nil s.data)
  · rw [h'] at h1
    simp only [List.headD_cons] at h1
    exact mem_splitNl_no_newline s.data t (by rw [h']; exact List.mem_cons_self t ts) h1

theorem pyReadLines_joinLines :
    ∀ (ls : List String), (∀ l ∈ ls, '\n' ∉ l.data) →
      pyReadLines (joinLines ls) = ls.map (· ++ "\n") := by
  intro ls
  induction ls with
  | nil => intro _; rfl
  | cons l rest ih =>
    intro h
    have hl : '\n' ∉ l.data := h l (List.mem_cons_self _ _)
    have hdata : (joinLines (l :: rest)).data = l.data ++ '\n' :: (joinLines rest).data := by
      show (l ++ "\n" ++ joinLines rest).data = _
      simp [String.data_append]
    simp only [pyReadLines, hdata, splitNl_append_newline l.data _ hl]
    rcases h' : splitNl (joinLines rest).data with _ | ⟨t, ts⟩
    · exact absurd h' (splitNl_ne_nil _)
    · have htail : readLinesAux (splitNl (joinLines rest).data) = rest.map (· ++ "\n") := by
        have := ih (fun x hx => h x (List.mem_cons_of_mem _ hx))
        simpa [pyReadLines] using this
      rw [h'] at htail
      simp only [readLinesAux, List.map_cons]
      rw [htail]
      rfl

/-! ## The claims -/

/-- C2: for every existing input file holding a JSON contact array,
`sort_contacts` writes to the output location that same multiset of
contacts, sorted by the case-folded `(last_name, first_name)` key (missing
names read as `""`), stably; the sort is total even when name fields are
absent (the conclusion holds for every contact list, `none` fields
included). -/
theorem sort_contacts_files_spec (fs : FS) (inp out : String) (cs : List Contact)
    (h : lookupEntry fs inp = some (.file (.contacts cs))) :
    sort_contacts fs inp out =
      .ok (setFile fs out (.contacts (sortContacts cs)))
        ⟨"success", "Contacts sorted and saved to " ++ out ++ "."⟩ ∧
    List.Perm (sortContacts cs) cs ∧
    (sortContacts cs).Pairwise ContactRel ∧
    (∀ a b : Contact, contactKey a = contactKey b → List.Sublist [a, b] cs →
      List.Sublist [a, b] (sortContacts cs)) := by
  refine ⟨?_, sortContacts_perm cs, sortContacts_sorted cs,
    fun a b hk hs => sortContacts_stable cs a b hk hs⟩
  simp [sort_contacts, pathExists, h]

/-- Witness for C2, on Scenario A: the Zed/Amy input file comes out with the
Amy record first. -/
theorem sort_contacts_files_spec_witness :
    lookupEntry [("contacts.json", FsEntry.file (.contacts
        [⟨some "Bob", some "Zed", []⟩, ⟨some "Amy", some "Amy", []⟩]))] "contacts.json" =
      some (.file (.contacts [⟨some "Bob", some "Zed", []⟩, ⟨some "Amy", some "Amy", []⟩])) ∧
    sort_contacts
        [("contacts.json", FsEntry.file (.contacts
          [⟨some "Bob", some "Zed", []⟩, ⟨some "Amy", some "Amy", []⟩]))]
        "contacts.json" "out.json" =
      .ok (setFile
            [("contacts.json", FsEntry.file (.contacts
              [⟨some "Bob", some "Zed", []⟩, ⟨some "Amy", some "Amy", []⟩]))]
            "out.json"
            (.contacts [⟨some "Amy", some "Amy", []⟩, ⟨some "Bob", some "Zed", []⟩]))
        ⟨"success", "Contacts sorted and saved to out.json."⟩ :=
  ⟨rfl,
   ((sort_contacts_files_spec
      [("contacts.json", FsEntry.file (.contacts
        [⟨some "Bob", some "Zed", []⟩, ⟨some "Amy", some "Amy", []⟩]))]
      "contacts.json" "out.json"
      [⟨some "Bob", some "Zed", []⟩, ⟨some "Amy", some "Amy", []⟩] rfl).1).trans (by decide)⟩

/-- C3: the contact sort is idempotent (re-sorting its output changes
nothing) and stable (contacts with equal case-folded keys keep their
original relative order). -/
theorem sortContacts_idempotent_stable (cs : List Contact) :
    sortContacts (sortContacts cs) = sortContacts cs ∧
    ∀ a b : Contact, contactKey a = contactKey b → List.Sublist [a, b] cs →
      List.Sublist [a, b] (sortContacts cs) :=
  ⟨sortContacts_idem cs, fun a b hk hs => sortContacts_stable cs a b hk hs⟩

/-- Witness for C3, on two contacts whose keys agree after case folding. -/
theorem sortContacts_idempotent_stable_witness :
    sortContacts (sortContacts
        [⟨some "Ann", some "Lee", [("id", "1")]⟩, ⟨some "ANN", some "LEE", [("id", "2")]⟩]) =
      sortContacts
        [⟨some "Ann", some "Lee", [("id", "1")]⟩, ⟨some "ANN", some "LEE", [("id", "2")]⟩] ∧
    List.Sublist
      [⟨some "Ann", some "Lee", [("id", "1")]⟩, ⟨some "ANN", some "LEE", [("id", "2")]⟩]
      (sortContacts
        [⟨some "Ann", some "Lee", [("id", "1")]⟩, ⟨some "ANN", some "LEE", [("id", "2")]⟩]) :=
  ⟨(sortContacts_idempotent_stable _).1,
   (sortContacts_idempotent_stable _).2 _ _ (by decide) (List.Sublist.refl _)⟩

/-- C4: on an existing log directory, `write_recent_log_lines` writes
exactly `min 10 (number of .log files)` lines — the written text reads back
as exactly the trimmed first lines of the taken files, newline-terminated —
ordered most-recently-modified first; an empty log file contributes an
empty line rather than a failure. -/
theorem write_recent_log_lines_spec (fs : FS) (inp out : String) (entries : List DirFile)
    (h : lookupEntry fs inp = some (.dir entries)) :
    write_recent_log_lines fs inp out =
      .ok (setFile fs out (.text (joinLines
          ((((entries.filter fun f => strEndsWith f.name ".log").insertionSort LogRel).take
            10).map fun f => firstLine f.content))))
        ⟨"success", "First lines of 10 most recent logs saved to " ++ out ++ "."⟩ ∧
    pyReadLines (joinLines
        ((((entries.filter fun f => strEndsWith f.name ".log").insertionSort LogRel).take
          10).map fun f => firstLine f.content)) =
      (((((entries.filter fun f => strEndsWith f.name ".log").insertionSort LogRel).take
        10).map fun f => firstLine f.content).map fun l => l ++ "\n") ∧
    ((((entries.filter fun f => strEndsWith f.name ".log").insertionSort LogRel).take
        10).map fun f => firstLine f.content).length =
      min 10 (entries.countP fun f => strEndsWith f.name ".log") ∧
    (((entries.filter fun f => strEndsWith f.name ".log").insertionSort LogRel).take
        10).Pairwise LogRel ∧
    firstLine "" = "" := by
  refine ⟨?_, ?_, ?_, ?_, rfl⟩
  · simp [write_recent_log_lines, pathExists, h]
  · apply pyReadLines_joinLines
    intro l hl
    simp only [List.mem_map] at hl
    obtain ⟨f, _, rfl⟩ := hl
    exact firstLine_no_newline f.content
  · simp [List.length_take, List.length_insertionSort, List.countP_eq_length_filter]
  · exact List.Pairwise.sublist (List.take_sublist _ _) (List.sorted_insertionSort LogRel _)

/-- Witness for C4: a directory with two log files (one empty) and one
non-log file produces two lines, newest log first, the empty log giving an
empty line. -/
theorem write_recent_log_lines_spec_witness :
    lookupEntry
        [("logs/", FsEntry.dir
          [⟨"a.log", 1, "alpha line\nmore"⟩, ⟨"b.log", 5, ""⟩, ⟨"notes.txt", 9, "x"⟩])]
        "logs/" =
      some (.dir [⟨"a.log", 1, "alpha line\nmore"⟩, ⟨"b.log", 5, ""⟩, ⟨"notes.txt", 9, "x"⟩]) ∧
    write_recent_log_lines
        [("logs/", FsEntry.dir
          [⟨"a.log", 1, "alpha line\nmore"⟩, ⟨"b.log", 5, ""⟩, ⟨"notes.txt", 9, "x"⟩])]
        "logs/" "out.txt" =
      .ok (setFile
            [("logs/", FsEntry.dir
              [⟨"a.log", 1, "alpha line\nmore"⟩, ⟨"b.log", 5, ""⟩, ⟨"notes.txt", 9, "x"⟩])]
            "out.txt" (.text "\nalpha line\n"))
        ⟨"success", "First lines of 10 most recent logs saved to out.txt."⟩ ∧
    pyReadLines "\nalpha line\n" = ["\n", "alpha line\n"] :=
  ⟨rfl,
   ((write_recent_log_lines_spec
      [("logs/", FsEntry.dir
        [⟨"a.log", 1, "alpha line\nmore"⟩, ⟨"b.log", 5, ""⟩, ⟨"notes.txt", 9, "x"⟩])]
      "logs/" "out.txt"
      [⟨"a.log", 1, "alpha line\nmore"⟩, ⟨"b.log", 5, ""⟩, ⟨"notes.txt", 9, "x"⟩] rfl).1).trans
     (by decide),
   by decide⟩

/-- C5: on an existing input file of date lines, `count_wednesdays` writes
(as plain text) the number of lines that parse to a Wednesday; a line is
parsed by trying the accepted formats in order with the first match
winning; lines matching no format are silently skipped — they neither
count nor raise. -/
theorem count_wednesdays_spec (fs : FS) (inp out : String) (s : String)
    (h : lookupEntry fs inp = some (.file (.text s))) :
    count_wednesdays fs inp out =
      .ok (setFile fs out (.text (toString (wednesdayCount (pyReadLines s)))))
        ⟨"success", "Count of Wednesdays saved to " ++ out ++ "."⟩ ∧
    (∀ (l : String) (ls : List String), parse_date l = none →
      wednesdayCount (l :: ls) = wednesdayCount ls) ∧
    (∀ l : String, isWednesdayLine l = true ↔
      ∃ dt, parse_date l = some dt ∧ pyWeekday dt = 2) ∧
    (∀ (g : String) (f : DateFormat) (rest : List DateFormat) (dt : PyDateTime),
      strptime g f = some dt → parseDateAux g (f :: rest) = some dt) ∧
    (∀ (g : String) (f : DateFormat) (rest : List DateFormat),
      strptime g f = none → parseDateAux g (f :: rest) = parseDateAux g rest) := by
  refine ⟨?_, ?_, ?_, ?_, ?_⟩
  · simp [count_wednesdays, pathExists, h]
  · intro l ls hn
    simp [wednesdayCount, List.countP_cons, isWednesdayLine, hn]
  · intro l
    unfold isWednesdayLine
    cases hp : parse_date l with
    | none => simp
    | some dt => simp [beq_iff_eq]
  · intro g f rest dt hf
    simp [parseDateAux, hf]
  · intro g f rest hf
    simp [parseDateAux, hf]

/-- Witness for C5, on Scenario B: the file with lines `2023-01-04` and
`not-a-date` gets the count `1` written. -/
theorem count_wednesdays_spec_witness :
    lookupEntry [("dates.txt", FsEntry.file (.text "2023-01-04\nnot-a-date"))] "dates.txt" =
      some (.file (.text "2023-01-04\nnot-a-date")) ∧
    count_wednesdays [("dates.txt", FsEntry.file (.text "2023-01-04\nnot-a-date"))]
        "dates.txt" "out.txt" =
      .ok (setFile [("dates.txt", FsEntry.file (.text "2023-01-04\nnot-a-date"))]
            "out.txt" (.text "1"))
        ⟨"success", "Count of Wednesdays saved to out.txt."⟩ ∧
    parse_date "not-a-date" = none :=
  ⟨rfl,
   ((count_wednesdays_spec [("dates.txt", FsEntry.file (.text "2023-01-04\nnot-a-date"))]
      "dates.txt" "out.txt" "2023-01-04\nnot-a-date" rfl).1).trans (by decide),
   by decide⟩

/-- C1 (the defect the spec flags in §9): `generate_markdown_index` does
NOT derive its file locations from its supplied arguments — its result is
independent of both of them, and on a filesystem holding both the supplied
`docs/` directory and the hard-coded `data/` directory it indexes `data/`
and writes to `data/index.json`, not to the supplied output location. -/
theorem generate_markdown_index_hardcoded_paths :
    (∀ (fs : FS) (i o i2 o2 : String),
      generate_markdown_index fs i o = generate_markdown_index fs i2 o2) ∧
    generate_markdown_index
        [("docs/", .dir [⟨"a.md", 0, "# Docs Title\n"⟩]),
         ("data/", .dir [⟨"b.md", 0, "# Data Title\n"⟩])]
        "docs/" "result.json" =
      .ok (setFile
            [("docs/", .dir [⟨"a.md", 0, "# Docs Title\n"⟩]),
             ("data/", .dir [⟨"b.md", 0, "# Data Title\n"⟩])]
            "data/index.json" (.index [("b.md", "Data Title")]))
        ⟨"success", "Markdown index saved to data/index.json."⟩ :=
  ⟨fun _ _ _ _ _ => rfl, by decide⟩

/-- C6 (violated by the same defect): the three tools that honor their
parameters do raise 404 naming the missing input path, but
`generate_markdown_index` with a nonexistent input location succeeds
(indexing the hard-coded `data/`) instead of failing with 404. -/
theorem missing_input_notfound_violated :
    sort_contacts [] "missing.json" "out.json" =
      .err 404 "Input file missing.json does not exist." ∧
    count_wednesdays [] "missing.txt" "out.txt" =
      .err 404 "Input file missing.txt does not exist." ∧
    write_recent_log_lines [] "missing_logs" "out.txt" =
      .err 404 "Logs directory missing_logs does not exist." ∧
    generate_markdown_index [("data/", .dir [])] "missing_docs" "out.json" =
      .ok (setFile [("data/", .dir [])] "data/index.json" (.index []))
        ⟨"success", "Markdown index saved to data/index.json."⟩ :=
  ⟨by decide, by decide, by decide, by decide⟩

/-- C7: a task that is empty after stripping is rejected with a 400 before
the gateway is consulted (`gatewayCalled = false`, and the result is the
same for every gateway behavior), and the filesystem is untouched. -/
theorem run_blank_task_rejected (fs : FS) (task : String) (gateway : GatewayOutcome)
    (h : pyStrip task = "") :
    run fs task gateway = ⟨false, .err 400 "Task cannot be empty", fs⟩ := by
  simp [run, h]

/-- Witness for C7: a whitespace-only task. -/
theorem run_blank_task_rejected_witness :
    pyStrip "   " = "" ∧
    run [] "   " (.ok []) = ⟨false, .err 400 "Task cannot be empty", []⟩ :=
  ⟨rfl, run_blank_task_rejected [] "   " (.ok []) rfl⟩

/-- C8: when the first tool call of the gateway response names a tool that
is not a key of `FUNCTIONS` and its arguments are well-formed JSON, the
dispatcher answers 400 with a message naming the missing tool, and no tool
runs (the filesystem comes back unchanged). -/
theorem run_unknown_tool_rejected (fs : FS) (task : String) (tc : ToolCall)
    (rest : List ToolCall) (args : List (String × String))
    (htask : pyStrip task ≠ "") (hargs : tc.args = some args)
    (hname : List.lookup tc.name FUNCTIONS = none) :
    run fs task (.ok (tc :: rest)) =
      ⟨true, .err 400 ("Function not found: " ++ tc.name), fs⟩ := by
  simp [run, dispatchToolCalls, htask, hargs, hname]

/-- Witness for C8, on Scenario E: a tool call naming `make_index`, which
the Registry does not contain. -/
theorem run_unknown_tool_rejected_witness :
    pyStrip "build the index" ≠ "" ∧
    List.lookup "make_index" FUNCTIONS = none ∧
    run [] "build the index"
        (.ok [⟨"make_index", some [("input_location", "docs/"), ("output_location", "o.json")]⟩]) =
      ⟨true, .err 400 "Function not found: make_index", []⟩ :=
  ⟨by decide, rfl,
   run_unknown_tool_rejected [] "build the index"
     ⟨"make_index", some [("input_location", "docs/"), ("output_location", "o.json")]⟩
     [] [("input_location", "docs/"), ("output_location", "o.json")]
     (by decide) rfl rfl⟩

/-- C9: the names declared by the Tool Catalog (`tools`) are exactly, and
in the same order as, the keys of the Tool Registry (`FUNCTIONS`); both are
constants, never mutated after startup. -/
theorem catalog_names_eq_registry_keys :
    tools.map ToolDescriptor.name = FUNCTIONS.map Prod.fst := rfl

/-- C10: for `sort_contacts`, `count_wednesdays` and
`write_recent_log_lines`, a nonexistent input path raises the 404 before
the output location is opened, so the filesystem — in particular the file
at the output location — is left exactly as it was. -/
theorem tools_preserve_fs_on_missing_input (fs : FS) (inp out : String)
    (h : pathExists fs inp = false) :
    sort_contacts fs inp out = .err 404 ("Input file " ++ inp ++ " does not exist.") ∧
    count_wednesdays fs inp out = .err 404 ("Input file " ++ inp ++ " does not exist.") ∧
    write_recent_log_lines fs inp out =
      .err 404 ("Logs directory " ++ inp ++ " does not exist.") ∧
    finalFS fs (sort_contacts fs inp out) = fs ∧
    finalFS fs (count_wednesdays fs inp out) = fs ∧
    finalFS fs (write_recent_log_lines fs inp out) = fs := by
  have h1 : sort_contacts fs inp out =
      .err 404 ("Input file " ++ inp ++ " does not exist.") := by
    simp [sort_contacts, h]
  have h2 : count_wednesdays fs inp out =
      .err 404 ("Input file " ++ inp ++ " does not exist.") := by
    simp [count_wednesdays, h]
  have h3 : write_recent_log_lines fs inp out =
      .err 404 ("Logs directory " ++ inp ++ " does not exist.") := by
    simp [write_recent_log_lines, h]
  exact ⟨h1, h2, h3, by rw [h1]; rfl, by rw [h2]; rfl, by rw [h3]; rfl⟩

/-- Witness for C10: a missing input path on a nonempty filesystem leaves
that filesystem unchanged. -/
theorem tools_preserve_fs_on_missing_input_witness :
    pathExists [("data/", FsEntry.dir [])] "absent.txt" = false ∧
    (sort_contacts [("data/", FsEntry.dir [])] "absent.txt" "o.txt" =
        .err 404 "Input file absent.txt does not exist." ∧
      count_wednesdays [("data/", FsEntry.dir [])] "absent.txt" "o.txt" =
        .err 404 "Input file absent.txt does not exist." ∧
      write_recent_log_lines [("data/", FsEntry.dir [])] "absent.txt" "o.txt" =
        .err 404 "Logs directory absent.txt does not exist." ∧
      finalFS [("data/", FsEntry.dir [])]
          (sort_contacts [("data/", FsEntry.dir [])] "absent.txt" "o.txt") =
        [("data/", FsEntry.dir [])] ∧
      finalFS [("data/", FsEntry.dir [])]
          (count_wednesdays [("data/", FsEntry.dir [])] "absent.txt" "o.txt") =
        [("data/", FsEntry.dir [])] ∧
      finalFS [("data/", FsEntry.dir [])]
          (write_recent_log_lines [("data/", FsEntry.dir [])] "absent.txt" "o.txt") =
        [("data/", FsEntry.dir [])]) :=
  ⟨rfl, tools_preserve_fs_on_missing_input [("data/", FsEntry.dir [])] "absent.txt" "o.txt" rfl⟩
